import Mathlib

/-!
Verification of the cuBLAS session-lifecycle layer of the rcublas crate
(file src/rcublas/cublas/src/api/util.rs).

The layer wraps four native primitives (create, destroy, get-pointer-mode,
set-pointer-mode) and keeps a process-wide registry of live handles.  The
native library is external: each wrapper call receives a status code from
it.  We embed each wrapper as a pure function over an explicit state,
taking the native status code as an oracle argument, so that every theorem
quantifies over all possible native outcomes.
-/

namespace Rcublas

/-- Native status-code space of the cuBLAS library (the ffi crate is an
external collaborator; the variants are the documented cublasStatus_t
values).  The wrappers match on SUCCESS, NOT_INITIALIZED and, in create,
ARCH_MISMATCH and ALLOC_FAILED; all remaining variants flow through the
catch-all arm. -/
inductive cublasStatus_t where
  | CUBLAS_STATUS_SUCCESS
  | CUBLAS_STATUS_NOT_INITIALIZED
  | CUBLAS_STATUS_ALLOC_FAILED
  | CUBLAS_STATUS_INVALID_VALUE
  | CUBLAS_STATUS_ARCH_MISMATCH
  | CUBLAS_STATUS_MAPPING_ERROR
  | CUBLAS_STATUS_EXECUTION_FAILED
  | CUBLAS_STATUS_INTERNAL_ERROR
  | CUBLAS_STATUS_NOT_SUPPORTED
  | CUBLAS_STATUS_LICENSE_ERROR
  deriving DecidableEq, Repr

/-- Native two-valued pointer-mode enumeration (cublasPointerMode_t). -/
inductive cublasPointerMode_t where
  | CUBLAS_POINTER_MODE_HOST
  | CUBLAS_POINTER_MODE_DEVICE
  deriving DecidableEq, Repr

/-- Error taxonomy of the crate (the Error type is declared outside the
given source file; its variants are exactly the ones the wrappers in
util.rs construct, matching section 7 of the spec). -/
inductive Error where
  | NotInitialized
  | ArchMismatch
  | AllocFailed
  | Unknown (reason : String)
  deriving DecidableEq, Repr

/-- An opaque handle value (cublasHandle_t): a machine word whose bit
pattern carries no invariant. -/
abbrev Handle := Nat

/-- The two-valued pointer mode exposed to callers.  Modelled from the
spec: PointerMode is a two-valued enumeration, Host and Device, mirroring
the native enumeration (the Rust enum is declared outside the given
source file). -/
inductive PointerMode where
  | Host
  | Device
  deriving DecidableEq, Repr

/-- Modelled from the spec: translation from the native enumeration into
PointerMode. -/
def PointerMode.from_c : cublasPointerMode_t → PointerMode
  | .CUBLAS_POINTER_MODE_HOST => .Host
  | .CUBLAS_POINTER_MODE_DEVICE => .Device

/-- Modelled from the spec: translation from PointerMode into the native
enumeration. -/
def PointerMode.as_c : PointerMode → cublasPointerMode_t
  | .Host => .CUBLAS_POINTER_MODE_HOST
  | .Device => .CUBLAS_POINTER_MODE_DEVICE

/-- The user-facing context object, wrapping one handle.  Modelled from
the spec: a Session exclusively owns exactly one Handle (the Context type
is declared outside the given source file; util.rs reads it only through
id_c). -/
structure Context where
  id_c : Handle
  deriving DecidableEq, Repr

/-- Modelled from the spec: Context construction from a raw native
handle. -/
def Context.from_c (handle : Handle) : Context := ⟨handle⟩

namespace Tracker

/-- Modelled from the spec: HandleRegistry track inserts the handle into
the process-wide live set (the Tracker type is declared outside the given
source file). -/
def track (reg : Finset Handle) (handle : Handle) : Finset Handle :=
  insert handle reg

/-- Modelled from the spec: HandleRegistry untrack removes the handle from
the live set. -/
def untrack (reg : Finset Handle) (handle : Handle) : Finset Handle :=
  reg.erase handle

/-- Modelled from the spec: HandleRegistry liveness check, a non-mutating
membership test returning a Boolean. -/
def checkExists (reg : Finset Handle) (handle : Handle) : Bool :=
  handle ∈ reg

end Tracker

/-- Modelled from the spec: the per-handle pointer-mode state held inside
the native library (section 3: the mode is session-scoped state held
inside the native library; section 6 gives the native primitive
contracts).  An association list from handle to its current mode. -/
structure CublasState where
  modes : List (Handle × cublasPointerMode_t)
  deriving DecidableEq, Repr

/-- Look up the native pointer mode of a handle. -/
def CublasState.getMode (st : CublasState) (handle : Handle) :
    Option cublasPointerMode_t :=
  (st.modes.find? (fun p => p.1 == handle)).map Prod.snd

/-- Overwrite the native pointer mode of a handle. -/
def CublasState.setMode (st : CublasState) (handle : Handle)
    (mode : cublasPointerMode_t) : CublasState :=
  ⟨(handle, mode) :: st.modes.filter (fun p => p.1 != handle)⟩

/-- Modelled from the spec: the native create primitive.  On a success
status it brings the new handle to life with pointer mode Host (section 8
default-state property, witnessed by the default_pointer_mode_is_host
test); on any other status the native state is unchanged. -/
def cublasCreate_v2 (st : CublasState) (status : cublasStatus_t)
    (newHandle : Handle) : CublasState :=
  match status with
  | .CUBLAS_STATUS_SUCCESS =>
      st.setMode newHandle .CUBLAS_POINTER_MODE_HOST
  | _ => st

/-- Modelled from the spec: the native destroy primitive.  On a success
status the handle ceases to exist natively; otherwise the native state is
unchanged. -/
def cublasDestroy_v2 (st : CublasState) (handle : Handle)
    (status : cublasStatus_t) : CublasState :=
  match status with
  | .CUBLAS_STATUS_SUCCESS => ⟨st.modes.filter (fun p => p.1 != handle)⟩
  | _ => st

/-- Modelled from the spec: the native get-mode primitive writes the mode
of the handle into the caller buffer; for a handle unknown to the native
library the buffer keeps its prior contents. -/
def cublasGetPointerMode_v2 (st : CublasState) (handle : Handle)
    (buf : cublasPointerMode_t) : cublasPointerMode_t :=
  (st.getMode handle).getD buf

/-- Modelled from the spec: the native set-mode primitive.  On a success
status it records the mode for the handle; otherwise the native state is
unchanged. -/
def cublasSetPointerMode_v2 (st : CublasState) (handle : Handle)
    (mode : cublasPointerMode_t) (status : cublasStatus_t) : CublasState :=
  match status with
  | .CUBLAS_STATUS_SUCCESS => st.setMode handle mode
  | _ => st

/-- The full state a wrapper call can touch: the handle registry and the
native library state. -/
structure ApiState where
  tracker : Finset Handle
  native : CublasState
  deriving DecidableEq

namespace API

/-- Embedding of API::ffi_create from util.rs.  The native call happens
first (producing the status and, on success, the new handle); the match
over the status then tracks the handle and returns it on SUCCESS, and
maps NOT_INITIALIZED, ARCH_MISMATCH, ALLOC_FAILED and the catch-all arm
to errors with no tracking. -/
def ffi_create (s : ApiState) (status : cublasStatus_t)
    (newHandle : Handle) : Except Error Handle × ApiState :=
  let native := cublasCreate_v2 s.native status newHandle
  match status with
  | .CUBLAS_STATUS_SUCCESS =>
      (Except.ok newHandle,
        ⟨Tracker.track s.tracker newHandle, native⟩)
  | .CUBLAS_STATUS_NOT_INITIALIZED =>
      (Except.error Error.NotInitialized, ⟨s.tracker, native⟩)
  | .CUBLAS_STATUS_ARCH_MISMATCH =>
      (Except.error Error.ArchMismatch, ⟨s.tracker, native⟩)
  | .CUBLAS_STATUS_ALLOC_FAILED =>
      (Except.error Error.AllocFailed, ⟨s.tracker, native⟩)
  | _ =>
      (Except.error
        (Error.Unknown ("Unable to create the cuBLAS context/resources.")),
        ⟨s.tracker, native⟩)

/-- Embedding of API::ffi_destroy from util.rs.  The handle is untracked
first, then the native destroy primitive runs and its status is mapped:
SUCCESS to Ok, NOT_INITIALIZED to NotInitialized, anything else to the
Unknown arm (whose reason string mentions cuDNN). -/
def ffi_destroy (s : ApiState) (handle : Handle)
    (status : cublasStatus_t) : Except Error Unit × ApiState :=
  let tracker := Tracker.untrack s.tracker handle
  let native := cublasDestroy_v2 s.native handle status
  match status with
  | .CUBLAS_STATUS_SUCCESS => (Except.ok (), ⟨tracker, native⟩)
  | .CUBLAS_STATUS_NOT_INITIALIZED =>
      (Except.error Error.NotInitialized, ⟨tracker, native⟩)
  | _ =>
      (Except.error
        (Error.Unknown
          ("Unable to destroy the CUDA cuDNN context/resources.")),
        ⟨tracker, native⟩)

/-- Embedding of API::ffi_get_pointer_mode from util.rs.  The source
evaluates the registry liveness check as a bare statement, discarding its
Boolean result (line 80); the buffer is initialised to HOST, the native
get-mode primitive runs, and the status is mapped. -/
def ffi_get_pointer_mode (s : ApiState) (handle : Handle)
    (status : cublasStatus_t) : Except Error cublasPointerMode_t × ApiState :=
  let _liveness := Tracker.checkExists s.tracker handle
  let buf := cublasPointerMode_t.CUBLAS_POINTER_MODE_HOST
  match status with
  | .CUBLAS_STATUS_SUCCESS =>
      (Except.ok (cublasGetPointerMode_v2 s.native handle buf), s)
  | .CUBLAS_STATUS_NOT_INITIALIZED =>
      (Except.error Error.NotInitialized, s)
  | _ =>
      (Except.error (Error.Unknown ("Unable to get cuBLAS pointer mode.")), s)

/-- Embedding of API::ffi_set_pointer_mode from util.rs.  As in get, the
registry liveness check result is discarded (line 93); the native
set-mode primitive runs and the status is mapped (the catch-all reason
string is the get-mode one, copied verbatim in the source). -/
def ffi_set_pointer_mode (s : ApiState) (handle : Handle)
    (pointer_mode : cublasPointerMode_t) (status : cublasStatus_t) :
    Except Error Unit × ApiState :=
  let _liveness := Tracker.checkExists s.tracker handle
  let native := cublasSetPointerMode_v2 s.native handle pointer_mode status
  match status with
  | .CUBLAS_STATUS_SUCCESS => (Except.ok (), ⟨s.tracker, native⟩)
  | .CUBLAS_STATUS_NOT_INITIALIZED =>
      (Except.error Error.NotInitialized, ⟨s.tracker, native⟩)
  | _ =>
      (Except.error (Error.Unknown ("Unable to get cuBLAS pointer mode.")),
        ⟨s.tracker, native⟩)

/-- Embedding of API::create from util.rs: ffi_create, then the raw
handle is wrapped in a Context. -/
def create (s : ApiState) (status : cublasStatus_t) (newHandle : Handle) :
    Except Error Context × ApiState :=
  match ffi_create s status newHandle with
  | (Except.ok handle, s2) => (Except.ok (Context.from_c handle), s2)
  | (Except.error e, s2) => (Except.error e, s2)

/-- Embedding of API::destroy from util.rs: the body only calls
ffi_destroy on the contained handle; the Context itself (taken by mutable
reference in the source) is never written to, so the embedding returns it
unchanged alongside the result and the new state. -/
def destroy (s : ApiState) (context : Context) (status : cublasStatus_t) :
    Except Error Unit × ApiState × Context :=
  let r := ffi_destroy s context.id_c status
  (r.1, r.2, context)

/-- Embedding of API::get_pointer_mode from util.rs: ffi_get_pointer_mode
on the contained handle, translating the native enumeration on success. -/
def get_pointer_mode (s : ApiState) (context : Context)
    (status : cublasStatus_t) : Except Error PointerMode × ApiState :=
  match ffi_get_pointer_mode s context.id_c status with
  | (Except.ok m, s2) => (Except.ok (PointerMode.from_c m), s2)
  | (Except.error e, s2) => (Except.error e, s2)

/-- Embedding of API::set_pointer_mode from util.rs: ffi_set_pointer_mode
on the contained handle with the translated enumeration value. -/
def set_pointer_mode (s : ApiState) (context : Context)
    (pointer_mode : PointerMode) (status : cublasStatus_t) :
    Except Error Unit × ApiState :=
  ffi_set_pointer_mode s context.id_c (PointerMode.as_c pointer_mode) status

end API

/-- One operation of the layer together with the status code the native
library answers with. -/
inductive Op where
  | create (newHandle : Handle) (status : cublasStatus_t)
  | destroy (handle : Handle) (status : cublasStatus_t)
  | getMode (handle : Handle) (status : cublasStatus_t)
  | setMode (handle : Handle) (mode : cublasPointerMode_t)
      (status : cublasStatus_t)
  deriving DecidableEq, Repr

/-- The state after one operation. -/
def step (s : ApiState) : Op → ApiState
  | Op.create n st => (API.ffi_create s st n).2
  | Op.destroy h st => (API.ffi_destroy s h st).2
  | Op.getMode h st => (API.ffi_get_pointer_mode s h st).2
  | Op.setMode h m st => (API.ffi_set_pointer_mode s h m st).2

/-- The state after a sequence of operations. -/
def run (s : ApiState) (ops : List Op) : ApiState := ops.foldl step s

/-- The membership history a handle should have according to the spec
invariant: live exactly when a successful create tracked it and no destroy
has untracked it since.  The Boolean argument is the liveness at the start
of the sequence. -/
def liveAfter (b : Bool) (handle : Handle) : List Op → Bool
  | [] => b
  | op :: rest =>
      liveAfter
        (match op with
          | Op.create n .CUBLAS_STATUS_SUCCESS =>
              if n = handle then true else b
          | Op.create _ _ => b
          | Op.destroy h _ => if h = handle then false else b
          | Op.getMode _ _ => b
          | Op.setMode _ _ _ => b)
        handle rest

/-- Boolean test that one character list starts with another. -/
def strStartsWith : List Char → List Char → Bool
  | [], _ => true
  | _ :: _, [] => false
  | c :: cs, d :: ds => c == d && strStartsWith cs ds

/-- Boolean substring test over character lists. -/
def strContains (needle : List Char) : List Char → Bool
  | [] => strStartsWith needle []
  | c :: cs => strStartsWith needle (c :: cs) || strContains needle cs

/-! Helper lemmas shared by the claim theorems. -/

lemma ffi_destroy_tracker (s : ApiState) (handle : Handle)
    (status : cublasStatus_t) :
    (API.ffi_destroy s handle status).2.tracker =
      Tracker.untrack s.tracker handle := by
  cases status <;> rfl

lemma ffi_create_tracker (s : ApiState) (status : cublasStatus_t)
    (newHandle : Handle) :
    (API.ffi_create s status newHandle).2.tracker =
      if status = cublasStatus_t.CUBLAS_STATUS_SUCCESS then
        Tracker.track s.tracker newHandle
      else s.tracker := by
  cases status <;> rfl

lemma ffi_get_tracker (s : ApiState) (handle : Handle)
    (status : cublasStatus_t) :
    (API.ffi_get_pointer_mode s handle status).2.tracker = s.tracker := by
  cases status <;> rfl

lemma ffi_set_tracker (s : ApiState) (handle : Handle)
    (mode : cublasPointerMode_t) (status : cublasStatus_t) :
    (API.ffi_set_pointer_mode s handle mode status).2.tracker = s.tracker := by
  cases status <;> rfl

lemma getMode_setMode (st : CublasState) (handle : Handle)
    (mode : cublasPointerMode_t) :
    (st.setMode handle mode).getMode handle = some mode := by
  simp [CublasState.setMode, CublasState.getMode, List.find?]

lemma from_c_as_c (m : PointerMode) :
    PointerMode.from_c (PointerMode.as_c m) = m := by
  cases m <;> rfl

lemma step_tracker (s : ApiState) (op : Op) :
    (step s op).tracker =
      (match op with
        | Op.create n .CUBLAS_STATUS_SUCCESS => Tracker.track s.tracker n
        | Op.create _ _ => s.tracker
        | Op.destroy h _ => Tracker.untrack s.tracker h
        | Op.getMode _ _ => s.tracker
        | Op.setMode _ _ _ => s.tracker) := by
  cases op with
  | create n st => cases st <;> rfl
  | destroy h st => cases st <;> rfl
  | getMode h st => cases st <;> rfl
  | setMode h m st => cases st <;> rfl

lemma decide_step_tracker (s : ApiState) (handle : Handle) (op : Op) :
    decide (handle ∈ (step s op).tracker) =
      (match op with
        | Op.create n .CUBLAS_STATUS_SUCCESS =>
            if n = handle then true else decide (handle ∈ s.tracker)
        | Op.create _ _ => decide (handle ∈ s.tracker)
        | Op.destroy h _ =>
            if h = handle then false else decide (handle ∈ s.tracker)
        | Op.getMode _ _ => decide (handle ∈ s.tracker)
        | Op.setMode _ _ _ => decide (handle ∈ s.tracker)) := by
  rw [step_tracker]
  cases op with
  | create n st =>
      cases st <;> try rfl
      by_cases hn : n = handle
      · subst hn
        simp [Tracker.track, Finset.mem_insert]
      · have hn2 : ¬handle = n := fun hh => hn hh.symm
        simp [Tracker.track, Finset.mem_insert, hn, hn2]
  | destroy h st =>
      by_cases hh : h = handle
      · subst hh
        simp [Tracker.untrack, Finset.mem_erase]
      · have hh2 : ¬handle = h := fun he => hh he.symm
        simp [Tracker.untrack, Finset.mem_erase, hh, hh2]
  | getMode h st => rfl
  | setMode h m st => rfl

lemma mem_run_eq_liveAfter (ops : List Op) :
    ∀ (s : ApiState) (handle : Handle),
      decide (handle ∈ (run s ops).tracker) =
        liveAfter (decide (handle ∈ s.tracker)) handle ops := by
  induction ops with
  | nil => intro s handle; rfl
  | cons op rest ih =>
      intro s handle
      have h1 : run s (op :: rest) = run (step s op) rest := rfl
      rw [h1, ih (step s op) handle, decide_step_tracker s handle op]
      rfl

/-! Claim theorems. -/

/-- Claim C1: ffi_destroy untracks the handle before the native destroy
primitive runs, so for every starting state and every native status
outcome the handle is absent from the live set after destroy returns; the
resulting registry is exactly the untracked one. -/
theorem destroy_untracks_on_all_statuses (s : ApiState) (handle : Handle)
    (status : cublasStatus_t) :
    handle ∉ (API.ffi_destroy s handle status).2.tracker ∧
      (API.ffi_destroy s handle status).2.tracker =
        Tracker.untrack s.tracker handle := by
  refine ⟨?_, ffi_destroy_tracker s handle status⟩
  rw [ffi_destroy_tracker]
  exact Finset.not_mem_erase handle s.tracker

/-- Claim C4: ffi_create maps the native status exactly as the source
matches it (SUCCESS returns the handle, NOT_INITIALIZED, ARCH_MISMATCH
and ALLOC_FAILED map to their errors, everything else to Unknown), and
the registry is changed only on the SUCCESS arm, where the new handle is
tracked. -/
theorem ffi_create_status_mapping (s : ApiState) (status : cublasStatus_t)
    (newHandle : Handle) :
    (API.ffi_create s status newHandle).1 =
      (match status with
        | .CUBLAS_STATUS_SUCCESS => Except.ok newHandle
        | .CUBLAS_STATUS_NOT_INITIALIZED => Except.error Error.NotInitialized
        | .CUBLAS_STATUS_ARCH_MISMATCH => Except.error Error.ArchMismatch
        | .CUBLAS_STATUS_ALLOC_FAILED => Except.error Error.AllocFailed
        | _ => Except.error
            (Error.Unknown ("Unable to create the cuBLAS context/resources."))) ∧
    (API.ffi_create s status newHandle).2.tracker =
      (if status = cublasStatus_t.CUBLAS_STATUS_SUCCESS then
        Tracker.track s.tracker newHandle
      else s.tracker) := by
  refine ⟨?_, ffi_create_tracker s status newHandle⟩
  cases status <;> rfl

/-- Claim C6: destroy, get-pointer-mode and set-pointer-mode each map the
full native status space: SUCCESS yields the success result,
NOT_INITIALIZED yields Error.NotInitialized, and every remaining status
falls into the Unknown arm of that call site. -/
theorem status_mapping_exhaustive (s : ApiState) (handle : Handle)
    (mode : cublasPointerMode_t) (status : cublasStatus_t) :
    (API.ffi_destroy s handle status).1 =
      (match status with
        | .CUBLAS_STATUS_SUCCESS => Except.ok ()
        | .CUBLAS_STATUS_NOT_INITIALIZED => Except.error Error.NotInitialized
        | _ => Except.error
            (Error.Unknown
              ("Unable to destroy the CUDA cuDNN context/resources."))) ∧
    (API.ffi_get_pointer_mode s handle status).1 =
      (match status with
        | .CUBLAS_STATUS_SUCCESS =>
            Except.ok (cublasGetPointerMode_v2 s.native handle
              cublasPointerMode_t.CUBLAS_POINTER_MODE_HOST)
        | .CUBLAS_STATUS_NOT_INITIALIZED => Except.error Error.NotInitialized
        | _ => Except.error
            (Error.Unknown ("Unable to get cuBLAS pointer mode."))) ∧
    (API.ffi_set_pointer_mode s handle mode status).1 =
      (match status with
        | .CUBLAS_STATUS_SUCCESS => Except.ok ()
        | .CUBLAS_STATUS_NOT_INITIALIZED => Except.error Error.NotInitialized
        | _ => Except.error
            (Error.Unknown ("Unable to get cuBLAS pointer mode."))) := by
  refine ⟨?_, ?_, ?_⟩ <;> cases status <;> rfl

/-- Claim C9: API::destroy takes the Context by mutable reference but
never writes to it: the returned Context is the very input, its handle
value included, while the registry entry for that handle is removed. -/
theorem destroy_preserves_context (s : ApiState) (context : Context)
    (status : cublasStatus_t) :
    (API.destroy s context status).2.2 = context ∧
    (API.destroy s context status).2.2.id_c = context.id_c ∧
    (API.destroy s context status).2.1.tracker =
      Tracker.untrack s.tracker context.id_c := by
  exact ⟨rfl, rfl, ffi_destroy_tracker s context.id_c status⟩

/-- Claim C10: on any unclassified native status, set-pointer-mode
returns Unknown with the same reason string as get-pointer-mode (the
get-mode wording, copied verbatim), while destroy returns Unknown with a
reason that names cuDNN and never mentions cuBLAS. -/
theorem unknown_reason_strings (s : ApiState) (handle : Handle)
    (mode : cublasPointerMode_t) (status : cublasStatus_t)
    (h1 : status ≠ cublasStatus_t.CUBLAS_STATUS_SUCCESS)
    (h2 : status ≠ cublasStatus_t.CUBLAS_STATUS_NOT_INITIALIZED) :
    (API.ffi_set_pointer_mode s handle mode status).1 =
      Except.error
        (Error.Unknown ("Unable to get cuBLAS pointer mode.")) ∧
    (API.ffi_get_pointer_mode s handle status).1 =
      Except.error
        (Error.Unknown ("Unable to get cuBLAS pointer mode.")) ∧
    (API.ffi_destroy s handle status).1 =
      Except.error
        (Error.Unknown
          ("Unable to destroy the CUDA cuDNN context/resources.")) ∧
    strContains ("cuDNN").data
      ("Unable to destroy the CUDA cuDNN context/resources.").data = true ∧
    strContains ("cuBLAS").data
      ("Unable to destroy the CUDA cuDNN context/resources.").data = false := by
  cases status <;>
    first
      | exact absurd rfl h1
      | exact absurd rfl h2
      | exact ⟨rfl, rfl, rfl, by decide, by decide⟩

/-- Witness for C10 at a concrete unclassified status. -/
theorem unknown_reason_strings_witness :
    (API.ffi_set_pointer_mode ⟨∅, ⟨[]⟩⟩ 0
        cublasPointerMode_t.CUBLAS_POINTER_MODE_HOST
        cublasStatus_t.CUBLAS_STATUS_INTERNAL_ERROR).1 =
      Except.error
        (Error.Unknown ("Unable to get cuBLAS pointer mode.")) ∧
    (API.ffi_get_pointer_mode ⟨∅, ⟨[]⟩⟩ 0
        cublasStatus_t.CUBLAS_STATUS_INTERNAL_ERROR).1 =
      Except.error
        (Error.Unknown ("Unable to get cuBLAS pointer mode.")) ∧
    (API.ffi_destroy ⟨∅, ⟨[]⟩⟩ 0
        cublasStatus_t.CUBLAS_STATUS_INTERNAL_ERROR).1 =
      Except.error
        (Error.Unknown
          ("Unable to destroy the CUDA cuDNN context/resources.")) ∧
    strContains ("cuDNN").data
      ("Unable to destroy the CUDA cuDNN context/resources.").data = true ∧
    strContains ("cuBLAS").data
      ("Unable to destroy the CUDA cuDNN context/resources.").data = false :=
  unknown_reason_strings ⟨∅, ⟨[]⟩⟩ 0
    cublasPointerMode_t.CUBLAS_POINTER_MODE_HOST
    cublasStatus_t.CUBLAS_STATUS_INTERNAL_ERROR
    (by decide) (by decide)

/-- Claim C5: across any sequence of create, destroy, get-mode and
set-mode operations, a handle is in the live set exactly when a
successful create tracked it and no destroy has since untracked it; and
the registry is mutated only by create (tracking, on the SUCCESS status
only) and destroy (untracking): get-mode and set-mode steps leave it
untouched. -/
theorem registry_membership_invariant (ops : List Op) (handle : Handle)
    (s : ApiState) :
    (handle ∈ (run s ops).tracker ↔
      liveAfter (decide (handle ∈ s.tracker)) handle ops = true) ∧
    (∀ (h : Handle) (st : cublasStatus_t),
      (step s (Op.getMode h st)).tracker = s.tracker) ∧
    (∀ (h : Handle) (m : cublasPointerMode_t) (st : cublasStatus_t),
      (step s (Op.setMode h m st)).tracker = s.tracker) ∧
    (∀ (n : Handle) (st : cublasStatus_t),
      (step s (Op.create n st)).tracker =
        if st = cublasStatus_t.CUBLAS_STATUS_SUCCESS then
          Tracker.track s.tracker n
        else s.tracker) ∧
    (∀ (h : Handle) (st : cublasStatus_t),
      (step s (Op.destroy h st)).tracker = Tracker.untrack s.tracker h) := by
  refine ⟨?_, ?_, ?_, ?_, ?_⟩
  · rw [← mem_run_eq_liveAfter]
    exact decide_eq_true_iff.symm
  · intro h st
    rw [step_tracker]
  · intro h m st
    rw [step_tracker]
  · intro n st
    rw [step_tracker]
    cases st <;> simp
  · intro h st
    rw [step_tracker]

/-- Claim C2 (code-bug evidence): with an empty registry the liveness
check reports false for handle 5, yet get-pointer-mode with a SUCCESS
status still reads the native mode through the stale handle and returns
it, and set-pointer-mode still writes native state through the stale
handle and returns Ok; neither operation fails fast.  This is the
discarded result of the liveness check on lines 80 and 93 of util.rs. -/
theorem pointer_mode_check_discarded :
    Tracker.checkExists (∅ : Finset Handle) 5 = false ∧
    (API.ffi_get_pointer_mode
        ⟨∅, ⟨[(5, cublasPointerMode_t.CUBLAS_POINTER_MODE_DEVICE)]⟩⟩ 5
        cublasStatus_t.CUBLAS_STATUS_SUCCESS).1 =
      Except.ok cublasPointerMode_t.CUBLAS_POINTER_MODE_DEVICE ∧
    (API.ffi_set_pointer_mode
        ⟨∅, ⟨[(5, cublasPointerMode_t.CUBLAS_POINTER_MODE_DEVICE)]⟩⟩ 5
        cublasPointerMode_t.CUBLAS_POINTER_MODE_HOST
        cublasStatus_t.CUBLAS_STATUS_SUCCESS).1 = Except.ok () ∧
    (API.ffi_set_pointer_mode
        ⟨∅, ⟨[(5, cublasPointerMode_t.CUBLAS_POINTER_MODE_DEVICE)]⟩⟩ 5
        cublasPointerMode_t.CUBLAS_POINTER_MODE_HOST
        cublasStatus_t.CUBLAS_STATUS_SUCCESS).2.native.getMode 5 =
      some cublasPointerMode_t.CUBLAS_POINTER_MODE_HOST := by
  refine ⟨by decide, rfl, rfl, rfl⟩

/-- Claim C3 counterexample: handle 7 is created, destroyed once (which
removes it from the registry), and then destroyed a second time with the
native library reporting success; the second destroy returns Ok, silently
succeeding instead of being rejected. -/
theorem double_destroy_silently_succeeds :
    7 ∉ (API.ffi_destroy
        (API.ffi_create ⟨∅, ⟨[]⟩⟩ cublasStatus_t.CUBLAS_STATUS_SUCCESS 7).2
        7 cublasStatus_t.CUBLAS_STATUS_SUCCESS).2.tracker ∧
    (API.ffi_destroy
        (API.ffi_destroy
          (API.ffi_create ⟨∅, ⟨[]⟩⟩ cublasStatus_t.CUBLAS_STATUS_SUCCESS 7).2
          7 cublasStatus_t.CUBLAS_STATUS_SUCCESS).2
        7 cublasStatus_t.CUBLAS_STATUS_SUCCESS).1 = Except.ok () := by
  refine ⟨by decide, rfl⟩

/-- Claim C3 (amended): destroy consults no registry state, so a second
destroy attempt is not rejected by this layer: its result is the same for
any registry contents, and it returns Ok exactly when the native status
is SUCCESS — with any other status it fails. -/
theorem destroy_ignores_registry (t1 t2 : Finset Handle) (n : CublasState)
    (handle : Handle) (status : cublasStatus_t) :
    (API.ffi_destroy ⟨t1, n⟩ handle status).1 =
      (API.ffi_destroy ⟨t2, n⟩ handle status).1 ∧
    ((API.ffi_destroy ⟨t1, n⟩ handle status).1 = Except.ok () ↔
      status = cublasStatus_t.CUBLAS_STATUS_SUCCESS) := by
  cases status <;> simp [API.ffi_destroy]

/-- Claim C7: for a live context, a set-pointer-mode call whose native
status is SUCCESS returns Ok, and an immediately following
get-pointer-mode call with a SUCCESS status returns exactly the mode that
was set, for both Host and Device. -/
theorem set_get_pointer_mode_round_trip (s : ApiState) (context : Context)
    (m : PointerMode) (_hlive : context.id_c ∈ s.tracker) :
    (API.set_pointer_mode s context m
        cublasStatus_t.CUBLAS_STATUS_SUCCESS).1 = Except.ok () ∧
    (API.get_pointer_mode
        (API.set_pointer_mode s context m
          cublasStatus_t.CUBLAS_STATUS_SUCCESS).2
        context cublasStatus_t.CUBLAS_STATUS_SUCCESS).1 = Except.ok m := by
  refine ⟨rfl, ?_⟩
  simp [API.set_pointer_mode, API.ffi_set_pointer_mode,
    cublasSetPointerMode_v2, API.get_pointer_mode, API.ffi_get_pointer_mode,
    cublasGetPointerMode_v2, getMode_setMode, from_c_as_c]

/-- Witness for C7 at a concrete live context and the Device mode. -/
theorem set_get_pointer_mode_round_trip_witness :
    (Context.mk 3).id_c ∈ ({3} : Finset Handle) ∧
    ((API.set_pointer_mode ⟨{3}, ⟨[]⟩⟩ ⟨3⟩ PointerMode.Device
        cublasStatus_t.CUBLAS_STATUS_SUCCESS).1 = Except.ok () ∧
     (API.get_pointer_mode
        (API.set_pointer_mode ⟨{3}, ⟨[]⟩⟩ ⟨3⟩ PointerMode.Device
          cublasStatus_t.CUBLAS_STATUS_SUCCESS).2
        ⟨3⟩ cublasStatus_t.CUBLAS_STATUS_SUCCESS).1 =
       Except.ok PointerMode.Device) :=
  ⟨by decide,
    set_get_pointer_mode_round_trip ⟨{3}, ⟨[]⟩⟩ ⟨3⟩ PointerMode.Device
      (by decide)⟩

/-- Claim C8: a freshly created context (successful create, no
intervening set-pointer-mode) reports pointer mode Host when its
get-pointer-mode call succeeds. -/
theorem fresh_context_pointer_mode_host (s : ApiState) (newHandle : Handle) :
    (API.create s cublasStatus_t.CUBLAS_STATUS_SUCCESS newHandle).1 =
      Except.ok (Context.from_c newHandle) ∧
    (API.get_pointer_mode
        (API.create s cublasStatus_t.CUBLAS_STATUS_SUCCESS newHandle).2
        (Context.from_c newHandle)
        cublasStatus_t.CUBLAS_STATUS_SUCCESS).1 =
      Except.ok PointerMode.Host := by
  refine ⟨rfl, ?_⟩
  simp [API.create, API.ffi_create, cublasCreate_v2, API.get_pointer_mode,
    API.ffi_get_pointer_mode, cublasGetPointerMode_v2, getMode_setMode,
    Context.from_c, PointerMode.from_c]

end Rcublas
